import Mathlib

/-!
Shallow embedding of zimg src/Depth/depth_convert2.cpp.

Pixel sample values (integer codes, half-float codes and 32-bit floats) are
modelled as exact rationals; the C++ float arithmetic `x * scale + offset` is
modelled by exact rational arithmetic.  Rows of an image buffer are modelled as
total functions `Nat → Rat` indexed by column; an image buffer is
`Nat → Nat → Rat` indexed by (row, column).  Byte-pointer arithmetic
`ptr += pixel_size * n` advances a typed row view by `n` elements, so it is
modelled by shifting the index of the row view by `n`.

Helpers that live outside the provided source file (Common/align.h,
Common/pixel.h, quantize.h) are modelled from the spec; each such definition
carries a doc comment starting with `Modelled from the spec:`.
-/

namespace zimg

/-- Pixel storage kinds, from Common/pixel.h as described by the spec:
8-bit integer, 16-bit integer, 16-bit half-float, 32-bit float. -/
inductive PixelType where
  | BYTE
  | WORD
  | HALF
  | FLOAT
deriving DecidableEq

/-- Modelled from the spec: `PixelFormat` (Common/pixel.h, not under src/)
describes a pixel's storage kind, bit depth, whether it uses full or limited
numeric range, and whether it has chroma semantics.  Equality compares all
fields (C++ operator== on the aggregate). -/
structure PixelFormat where
  type : PixelType
  depth : Nat
  fullrange : Bool
  chroma : Bool
deriving DecidableEq

/-- Modelled from the spec: `pixel_size` (Common/pixel.h, not under src/)
returns the byte size of one sample of the given storage kind. -/
def pixel_size : PixelType → Nat
  | .BYTE => 1
  | .WORD => 2
  | .HALF => 2
  | .FLOAT => 4

/-- Modelled from the spec: the vector `ALIGNMENT` constant (Common/align.h,
not under src/); the spec only says it is the hardware vector width in bytes.
We use 32 (AVX); none of the claims depends on the particular value. -/
def ALIGNMENT : Nat := 32

/-- Modelled from the spec: `mod x n` rounds `x` down to the nearest multiple
of `n` (Common/align.h, not under src/). -/
def mod (x n : Nat) : Nat := x - x % n

/-- Modelled from the spec: `align x n` rounds `x` up to the nearest multiple
of `n` (Common/align.h, not under src/). -/
def align (x n : Nat) : Nat := mod (x + n - 1) n

/-- Modelled from the spec: integer range lookup (quantize.h, not under src/).
Given bit depth, full-range flag and chroma flag, returns the representable
integer range.  The spec fixes the full-range case (`2^depth - 1`, so that the
maximum code maps to 1.0); the limited-range values follow the standard video
convention. -/
def integer_range (depth : Nat) (fullrange chroma : Bool) : Int :=
  if fullrange then ((2 ^ depth - 1 : Nat) : Int)
  else if chroma then ((224 * 2 ^ (depth - 8) : Nat) : Int)
  else ((219 * 2 ^ (depth - 8) : Nat) : Int)

/-- Modelled from the spec: integer zero-offset lookup (quantize.h, not under
src/).  The spec fixes the full-range non-chroma case (offset 0, so that code
0 maps to 0.0); chroma and limited-range values follow the standard video
convention. -/
def integer_offset (depth : Nat) (fullrange chroma : Bool) : Int :=
  if chroma then ((2 ^ (depth - 1) : Nat) : Int)
  else if fullrange then 0
  else ((16 * 2 ^ (depth - 8) : Nat) : Int)

/-- The elementwise integer-to-float kernel (source lines 16-23): for each
index in `[left, right)` write `src j * scale + offset` to the destination;
all other destination elements keep their previous contents.  The C++ template
parameter (uint8_t / uint16_t) only selects the byte width of the source
elements, which the model abstracts since rows carry numeric values. -/
def integer_to_float (src dst : Nat → ℚ) (scale offset : ℚ)
    (left right : Nat) : Nat → ℚ :=
  fun j => if left ≤ j ∧ j < right then src j * scale + offset else dst j

/-- The elementwise half-to-float kernel wrapper (source lines 25-31).  The
numeric primitive `half_to_float` is an external collaborator ("opaque pure
function" per the spec), so it is taken as the parameter `h2f`. -/
def half_to_float_n (h2f : ℚ → ℚ) (src dst : Nat → ℚ)
    (left right : Nat) : Nat → ℚ :=
  fun j => if left ≤ j ∧ j < right then h2f (src j) else dst j

/-- The elementwise float-to-half kernel wrapper (source lines 33-39), with
the opaque numeric primitive taken as the parameter `f2h`. -/
def float_to_half_n (f2h : ℚ → ℚ) (src dst : Nat → ℚ)
    (left right : Nat) : Nat → ℚ :=
  fun j => if left ≤ j ∧ j < right then f2h (src j) else dst j

/-- Tags for the `depth_convert_func` function-pointer values returned by the
kernel selector: the 8-bit and the 16-bit instantiation of
`integer_to_float`.  The null pointer is `Option.none`. -/
inductive DepthConvertFunc where
  | i2f_u8
  | i2f_u16
deriving DecidableEq

/-- Tags for the `depth_f16c_func` function-pointer values: `half_to_float_n`
and `float_to_half_n`.  The null pointer is `Option.none`. -/
inductive F16CFunc where
  | h2f_n
  | f2h_n
deriving DecidableEq

/-- Interpretation of a `DepthConvertFunc` tag: both instantiations run the
elementwise affine kernel (they differ only in source element byte width). -/
def run_convert : DepthConvertFunc →
    (Nat → ℚ) → (Nat → ℚ) → ℚ → ℚ → Nat → Nat → (Nat → ℚ)
  | .i2f_u8 => integer_to_float
  | .i2f_u16 => integer_to_float

/-- Interpretation of an `F16CFunc` tag, given the two opaque numeric
primitives. -/
def run_f16c (h2f f2h : ℚ → ℚ) : F16CFunc →
    (Nat → ℚ) → (Nat → ℚ) → Nat → Nat → (Nat → ℚ)
  | .h2f_n => half_to_float_n h2f
  | .f2h_n => float_to_half_n f2h

/-- The kernel selector (source lines 41-59): normalize HALF to FLOAT, then
BYTE to FLOAT selects the 8-bit affine kernel, WORD to FLOAT the 16-bit affine
kernel, FLOAT to FLOAT the null kernel; anything else is an internal error. -/
def select_depth_convert_func (format_in format_out : PixelFormat) :
    Except String (Option DepthConvertFunc) :=
  let type_in := if format_in.type = PixelType.HALF then PixelType.FLOAT
                 else format_in.type
  let type_out := if format_out.type = PixelType.HALF then PixelType.FLOAT
                  else format_out.type
  if type_in = PixelType.BYTE ∧ type_out = PixelType.FLOAT then
    Except.ok (some DepthConvertFunc.i2f_u8)
  else if type_in = PixelType.WORD ∧ type_out = PixelType.FLOAT then
    Except.ok (some DepthConvertFunc.i2f_u16)
  else if type_in = PixelType.FLOAT ∧ type_out = PixelType.FLOAT then
    Except.ok none
  else
    Except.error ("no conversion between pixel types")

/-- The state of a `ConvertToFloat` filter instance (source lines 62-72),
fixed at construction. -/
structure ConvertToFloat where
  m_func : Option DepthConvertFunc
  m_f16c : Option F16CFunc
  m_pixel_in : PixelType
  m_pixel_out : PixelType
  m_scale : ℚ
  m_offset : ℚ
  m_width : Nat
  m_height : Nat
deriving DecidableEq

/-- The `ConvertToFloat` constructor (source lines 74-99): validation throws
(modelled as `Except.error`) for a no-op conversion, for an f16c kernel with
two non-HALF formats, and for a non-floating output; otherwise derives the
affine constants `m_scale = 1/range` and `m_offset = -offset/range` from the
input format when it is an integer format, and `1`, `0` otherwise. -/
def ConvertToFloat.construct (func : Option DepthConvertFunc)
    (f16c : Option F16CFunc) (width height : Nat)
    (pixel_in pixel_out : PixelFormat) : Except String ConvertToFloat :=
  if pixel_in = pixel_out then
    Except.error ("cannot perform no-op conversion")
  else if f16c.isSome ∧ pixel_in.type ≠ PixelType.HALF ∧
      pixel_out.type ≠ PixelType.HALF then
    Except.error ("cannot provide f16c function for non-HALF types")
  else if pixel_out.type ≠ PixelType.HALF ∧
      pixel_out.type ≠ PixelType.FLOAT then
    Except.error ("DepthConvert only converts to floating point types")
  else
    let is_integer := pixel_in.type = PixelType.BYTE ∨
                      pixel_in.type = PixelType.WORD
    let range : Int := if is_integer then
        integer_range pixel_in.depth pixel_in.fullrange pixel_in.chroma else 1
    let offset : Int := if is_integer then
        integer_offset pixel_in.depth pixel_in.fullrange pixel_in.chroma else 0
    Except.ok
      { m_func := func
        m_f16c := f16c
        m_pixel_in := pixel_in.type
        m_pixel_out := pixel_out.type
        m_scale := 1 / (range : ℚ)
        m_offset := -(offset : ℚ) * (1 / (range : ℚ))
        m_width := width
        m_height := height }

/-- The two filter-capability flags reported by `get_flags` that the spec
describes (the remaining zero-initialized fields of the C++ flag struct are
out of scope). -/
structure ZimgFilterFlags where
  same_row : Bool
  in_place : Bool
deriving DecidableEq

/-- `get_flags` (source lines 101-109): `same_row` is always true, `in_place`
holds exactly when the input and output pixel byte sizes are equal. -/
def ConvertToFloat.get_flags (s : ConvertToFloat) : ZimgFilterFlags :=
  { same_row := true
    in_place := pixel_size s.m_pixel_in == pixel_size s.m_pixel_out }

/-- The alignment boundary `ALIGNMENT / min(pixel_size in, pixel_size out)`
computed in `get_tmp_size` (line 121) and `process` (line 137). -/
def ConvertToFloat.pixel_align (s : ConvertToFloat) : Nat :=
  ALIGNMENT / min (pixel_size s.m_pixel_in) (pixel_size s.m_pixel_out)

/-- `get_tmp_size` (source lines 116-130): zero unless both kernels are
present, else the byte size of a float buffer covering
`[mod left k, align right k)` where `k` is the alignment boundary
(`sizeof(float) = 4`). -/
def ConvertToFloat.get_tmp_size (s : ConvertToFloat) (left right : Nat) :
    Nat :=
  if s.m_func.isSome ∧ s.m_f16c.isSome then
    (align right s.pixel_align - mod left s.pixel_align) * 4
  else 0

/-- The range arithmetic of `process` (source lines 137-144): compute
`line_base = mod left k`, then return `(line_base, left - line_base,
right - line_base)`; the source and destination row pointers are advanced by
`line_base` elements and the kernels run on the shifted bounds. -/
def ConvertToFloat.process_window (s : ConvertToFloat) (left right : Nat) :
    Nat × Nat × Nat :=
  let line_base := mod left s.pixel_align
  (line_base, left - line_base, right - line_base)

/-- The kernel dispatch of `process` (source lines 146-153) on the shifted
views: both kernels run the affine kernel into `tmp` then the f16c kernel from
`tmp` to the destination; a single kernel runs source-to-destination.  With
neither kernel present the source calls the null `m_f16c` pointer, which is
undefined behavior, modelled as `none`. -/
def ConvertToFloat.dispatch (s : ConvertToFloat) (h2f f2h : ℚ → ℚ)
    (src_view dst_view tmp : Nat → ℚ) (left2 right2 : Nat) :
    Option ((Nat → ℚ) × (Nat → ℚ)) :=
  match s.m_func, s.m_f16c with
  | some f, some fc =>
      let t := run_convert f src_view tmp s.m_scale s.m_offset left2 right2
      some (run_f16c h2f f2h fc t dst_view left2 right2, t)
  | some f, none =>
      some (run_convert f src_view dst_view s.m_scale s.m_offset left2 right2,
            tmp)
  | none, some fc =>
      some (run_f16c h2f f2h fc src_view dst_view left2 right2, tmp)
  | none, none => none

/-- `process` (source lines 132-154): resolve the two row views, advance them
by `line_base` elements per `process_window`, dispatch the kernels on the
shifted bounds, and write the modified row view back into the destination
buffer.  The first result component is the destination buffer, the second the
scratch buffer. -/
def ConvertToFloat.process (s : ConvertToFloat) (h2f f2h : ℚ → ℚ)
    (src dst : Nat → Nat → ℚ) (tmp : Nat → ℚ) (i left right : Nat) :
    Option ((Nat → Nat → ℚ) × (Nat → ℚ)) :=
  let w := s.process_window left right
  let src_view := fun j => src i (w.1 + j)
  let dst_view := fun j => dst i (w.1 + j)
  match s.dispatch h2f f2h src_view dst_view tmp w.2.1 w.2.2 with
  | some (dv, t) =>
      some (fun r j => if r = i ∧ w.1 ≤ j then dv (j - w.1) else dst r j, t)
  | none => none

/-- The factory `create_convert_to_float` (source lines 160-177): select the
conversion kernel (possibly failing), pick the f16c kernel by the HALF side,
and construct the filter.  The unused `CPUClass` argument is omitted. -/
def create_convert_to_float (width height : Nat)
    (pixel_in pixel_out : PixelFormat) : Except String ConvertToFloat :=
  match select_depth_convert_func pixel_in pixel_out with
  | Except.error e => Except.error e
  | Except.ok func =>
      let needs_f16c := pixel_in.type = PixelType.HALF ∨
                        pixel_out.type = PixelType.HALF
      let f16c : Option F16CFunc :=
        if needs_f16c then
          if pixel_in.type = PixelType.HALF then some F16CFunc.h2f_n
          else if pixel_out.type = PixelType.HALF then some F16CFunc.f2h_n
          else none
        else none
      ConvertToFloat.construct func f16c width height pixel_in pixel_out

/-- Whether a construction attempt succeeded. -/
def exceptOk (e : Except String ConvertToFloat) : Bool :=
  match e with
  | Except.ok _ => true
  | Except.error _ => false

/-- Convenience accessor: the filter from a successful construction, with an
inert fallback for the error case (used only for concrete test fixtures). -/
def getFilter (e : Except String ConvertToFloat) : ConvertToFloat :=
  match e with
  | Except.ok s => s
  | Except.error _ =>
      { m_func := none, m_f16c := none, m_pixel_in := PixelType.FLOAT,
        m_pixel_out := PixelType.FLOAT, m_scale := 1, m_offset := 0,
        m_width := 0, m_height := 0 }

/-- Convenience accessor: the destination buffer produced by `process`, the
original buffer when `process` has no defined result. -/
def ConvertToFloat.processDst (s : ConvertToFloat) (h2f f2h : ℚ → ℚ)
    (src dst : Nat → Nat → ℚ) (tmp : Nat → ℚ) (i left right : Nat) :
    Nat → Nat → ℚ :=
  match s.process h2f f2h src dst tmp i left right with
  | some (d, _) => d
  | none => dst

/-- Test fixture: 8-bit full-range non-chroma integer format. -/
def fmtByte8 : PixelFormat := { type := PixelType.BYTE, depth := 8,
                                fullrange := true, chroma := false }

/-- Test fixture: 32-bit float format. -/
def fmtFloat32 : PixelFormat := { type := PixelType.FLOAT, depth := 32,
                                  fullrange := false, chroma := false }

/-- Test fixture: a second, distinct 32-bit float format (full-range flag
set); same storage type as `fmtFloat32` but a different format value. -/
def fmtFloat32Full : PixelFormat := { type := PixelType.FLOAT, depth := 32,
                                      fullrange := true, chroma := false }

/-- Test fixture: 16-bit half-float format. -/
def fmtHalf16 : PixelFormat := { type := PixelType.HALF, depth := 16,
                                 fullrange := false, chroma := false }

/-- Test fixture: a second, distinct half-float format (chroma flag set). -/
def fmtHalf16Chroma : PixelFormat := { type := PixelType.HALF, depth := 16,
                                       fullrange := false, chroma := true }

/-- Test fixture: the factory-built BYTE to FLOAT filter (affine kernel only). -/
def byteToFloatFilter : ConvertToFloat :=
  getFilter (create_convert_to_float 64 1 fmtByte8 fmtFloat32)

/-- Test fixture: the factory-built BYTE to HALF filter (both kernels). -/
def byteToHalfFilter : ConvertToFloat :=
  getFilter (create_convert_to_float 64 1 fmtByte8 fmtHalf16)

/-- Test fixture: the factory-built filter for two distinct full-float
formats (no kernels at all). -/
def floatToFloatFilter : ConvertToFloat :=
  getFilter (create_convert_to_float 64 1 fmtFloat32 fmtFloat32Full)

/-- Interpretation of an `F16CFunc` tag as a single-sample map. -/
def applyF16C (h2f f2h : ℚ → ℚ) : F16CFunc → ℚ → ℚ
  | F16CFunc.h2f_n => h2f
  | F16CFunc.f2h_n => f2h

/-- The single-sample map realized by a kernel configuration: affine then
f16c when both kernels are present, one of the two otherwise, the identity
when neither is present. -/
def kernelMap (func : Option DepthConvertFunc) (f16c : Option F16CFunc)
    (h2f f2h : ℚ → ℚ) (scale offset : ℚ) : ℚ → ℚ :=
  match func, f16c with
  | some _, some fc => fun v => applyF16C h2f f2h fc (v * scale + offset)
  | some _, none => fun v => v * scale + offset
  | none, some fc => fun v => applyF16C h2f f2h fc v
  | none, none => id

theorem run_convert_eq (f : DepthConvertFunc) :
    run_convert f = integer_to_float := by
  cases f <;> rfl

theorem run_f16c_eq (h2f f2h : ℚ → ℚ) (fc : F16CFunc)
    (src dst : Nat → ℚ) (left right : Nat) :
    run_f16c h2f f2h fc src dst left right =
      fun j => if left ≤ j ∧ j < right
               then applyF16C h2f f2h fc (src j) else dst j := by
  cases fc <;> rfl

theorem mod_le (x n : Nat) : mod x n ≤ x := Nat.sub_le _ _

theorem mod_dvd (x n : Nat) : n ∣ mod x n := by
  unfold mod
  refine ⟨x / n, ?_⟩
  have h := Nat.div_add_mod x n
  omega

theorem process_none (s : ConvertToFloat) (h2f f2h : ℚ → ℚ)
    (src dst : Nat → Nat → ℚ) (tmp : Nat → ℚ) (i left right : Nat)
    (hf : s.m_func = none) (hc : s.m_f16c = none) :
    s.process h2f f2h src dst tmp i left right = none := by
  unfold ConvertToFloat.process ConvertToFloat.dispatch
  rw [hf, hc]

theorem process_fst (s : ConvertToFloat) (h2f f2h : ℚ → ℚ)
    (src dst : Nat → Nat → ℚ) (tmp : Nat → ℚ) (i left right : Nat)
    (hk : ¬(s.m_func = none ∧ s.m_f16c = none)) :
    Option.map Prod.fst (s.process h2f f2h src dst tmp i left right) =
      some (s.processDst h2f f2h src dst tmp i left right) := by
  rcases hf : s.m_func with _ | f <;> rcases hc : s.m_f16c with _ | fc
  · exact absurd ⟨hf, hc⟩ hk
  all_goals
    simp only [ConvertToFloat.process, ConvertToFloat.processDst,
      ConvertToFloat.dispatch, hf, hc, Option.map]

theorem processDst_characterization (s : ConvertToFloat) (h2f f2h : ℚ → ℚ)
    (src dst : Nat → Nat → ℚ) (tmp : Nat → ℚ) (i left right : Nat)
    (hk : ¬(s.m_func = none ∧ s.m_f16c = none)) (hlr : left ≤ right) :
    s.processDst h2f f2h src dst tmp i left right = fun r j =>
      if r = i ∧ left ≤ j ∧ j < right
      then kernelMap s.m_func s.m_f16c h2f f2h s.m_scale s.m_offset (src i j)
      else dst r j := by
  have hlb : mod left s.pixel_align ≤ left := mod_le _ _
  funext r j
  rcases hf : s.m_func with _ | f <;> rcases hc : s.m_f16c with _ | fc
  · exact absurd ⟨hf, hc⟩ hk
  all_goals (
    simp only [ConvertToFloat.processDst, ConvertToFloat.process,
      ConvertToFloat.dispatch, ConvertToFloat.process_window, hf, hc,
      run_convert_eq, run_f16c_eq, integer_to_float, kernelMap]
    rcases eq_or_ne r i with hr | hr
    · subst hr
      split_ifs <;>
        first
          | rfl
          | (exfalso; omega)
          | (have e3 : mod left s.pixel_align +
                (j - mod left s.pixel_align) = j := by omega
             rw [e3])
    · simp [hr])

/-- Claim C1 (amended): for every per-tile execution with requested range
`[left, right)`, the execution computes the boundary
`k = ALIGNMENT / min(input_pixel_size, output_pixel_size)` (`pixel_align`),
rounds `left` down to a multiple of `k` (the `line_base` component of
`process_window`), and advances the source/destination pointers by that
amount so indices restart at zero (`line_base + adjusted_left = left` and
`line_base + adjusted_right = right`); the working range `[line_base, right)`
is a superset of `[left, right)` whose lower bound is a multiple of `k`.  The
original claim also asserted that `right` is rounded up to a multiple of `k`,
which `process` does not do (see the counterexample). -/
theorem claim_C1_alignment (s : ConvertToFloat) (left right : Nat)
    (h : left ≤ right) :
    s.pixel_align ∣ (s.process_window left right).1 ∧
    (s.process_window left right).1 ≤ left ∧
    (s.process_window left right).1 + (s.process_window left right).2.1 =
      left ∧
    (s.process_window left right).1 + (s.process_window left right).2.2 =
      right := by
  have e : s.process_window left right =
      (mod left s.pixel_align, left - mod left s.pixel_align,
        right - mod left s.pixel_align) := rfl
  rw [e]
  dsimp only
  have hlb := mod_le left s.pixel_align
  exact ⟨mod_dvd _ _, hlb, by omega, by omega⟩

/-- Witness for claim C1 at the BYTE-to-FLOAT filter and range `[5, 7)`. -/
theorem claim_C1_alignment_witness :
    byteToFloatFilter.pixel_align ∣
      (byteToFloatFilter.process_window 5 7).1 ∧
    (byteToFloatFilter.process_window 5 7).1 ≤ 5 ∧
    (byteToFloatFilter.process_window 5 7).1 +
      (byteToFloatFilter.process_window 5 7).2.1 = 5 ∧
    (byteToFloatFilter.process_window 5 7).1 +
      (byteToFloatFilter.process_window 5 7).2.2 = 7 :=
  claim_C1_alignment byteToFloatFilter 5 7 (by decide)

/-- Counterexample to claim C1 as stated: for the BYTE-to-FLOAT filter the
boundary is `k = 32`, and on the request `[5, 7)` the working window is
`line_base = 0` with adjusted bounds `(5, 7)`, so its absolute upper bound is
`0 + 7 = 7`, not a multiple of `k`: `process` never rounds `right` up. -/
theorem claim_C1_counterexample :
    byteToFloatFilter.pixel_align = 32 ∧
    byteToFloatFilter.process_window 5 7 = (0, 5, 7) ∧
    ¬(32 ∣ (0 + 7)) := by
  decide

/-- Claim C3 (confirmed): after normalizing HALF to FLOAT, the selector
returns the 8-bit affine kernel for BYTE inputs and floating outputs, the
16-bit affine kernel for WORD inputs and floating outputs, the null kernel
for floating inputs and floating outputs, and an internal error whenever the
output type is BYTE or WORD; and the result depends only on the two format
types, not on any other format field or instance state. -/
theorem claim_C3_selector (f1 f2 : PixelFormat) :
    (f1.type = PixelType.BYTE →
      (f2.type = PixelType.FLOAT ∨ f2.type = PixelType.HALF) →
      select_depth_convert_func f1 f2 =
        Except.ok (some DepthConvertFunc.i2f_u8)) ∧
    (f1.type = PixelType.WORD →
      (f2.type = PixelType.FLOAT ∨ f2.type = PixelType.HALF) →
      select_depth_convert_func f1 f2 =
        Except.ok (some DepthConvertFunc.i2f_u16)) ∧
    ((f1.type = PixelType.FLOAT ∨ f1.type = PixelType.HALF) →
      (f2.type = PixelType.FLOAT ∨ f2.type = PixelType.HALF) →
      select_depth_convert_func f1 f2 = Except.ok none) ∧
    ((f2.type = PixelType.BYTE ∨ f2.type = PixelType.WORD) →
      select_depth_convert_func f1 f2 =
        Except.error ("no conversion between pixel types")) ∧
    (∀ g1 g2 : PixelFormat, f1.type = g1.type → f2.type = g2.type →
      select_depth_convert_func f1 f2 = select_depth_convert_func g1 g2) := by
  obtain ⟨t1, d1, r1, c1⟩ := f1
  obtain ⟨t2, d2, r2, c2⟩ := f2
  refine ⟨?_, ?_, ?_, ?_, ?_⟩
  · rintro rfl (rfl | rfl) <;> rfl
  · rintro rfl (rfl | rfl) <;> rfl
  · rintro (rfl | rfl) (rfl | rfl) <;> rfl
  · rintro (rfl | rfl) <;> cases t1 <;> rfl
  · rintro ⟨u1, e1, s1, b1⟩ ⟨u2, e2, s2, b2⟩ h1 h2
    simp only at h1 h2
    subst h1
    subst h2
    rfl

/-- Witness for claim C3: BYTE to FLOAT selects the 8-bit affine kernel. -/
theorem claim_C3_selector_witness :
    select_depth_convert_func fmtByte8 fmtFloat32 =
      Except.ok (some DepthConvertFunc.i2f_u8) :=
  (claim_C3_selector fmtByte8 fmtFloat32).1 rfl (Or.inl rfl)

/-- Claim C4 (amended): construction fails with an internal error exactly
when the input format equals the output format, or an f16c kernel is
supplied while neither the input nor the output type is HALF, or the output
type is neither HALF nor FLOAT; for every other input construction succeeds.
The original claim required failure whenever it is not the case that exactly
one side is HALF; the code only rejects the case where neither side is HALF
(see the counterexample with two distinct HALF formats). -/
theorem claim_C4_construction_validation (func : Option DepthConvertFunc)
    (f16c : Option F16CFunc) (width height : Nat)
    (pin pout : PixelFormat) :
    exceptOk (ConvertToFloat.construct func f16c width height pin pout) =
      true ↔
    ¬(pin = pout ∨
      (f16c.isSome ∧ pin.type ≠ PixelType.HALF ∧
        pout.type ≠ PixelType.HALF) ∨
      (pout.type ≠ PixelType.HALF ∧ pout.type ≠ PixelType.FLOAT)) := by
  unfold ConvertToFloat.construct
  split_ifs with h1 h2 h3 <;> simp_all [exceptOk]

/-- Counterexample to claim C4 as stated: an f16c kernel supplied with two
distinct formats that are both HALF (so not exactly one side is HALF) is
accepted by the constructor, while the claim requires failure. -/
theorem claim_C4_counterexample :
    exceptOk (ConvertToFloat.construct none (some F16CFunc.h2f_n) 64 1
      fmtHalf16 fmtHalf16Chroma) = true ∧
    fmtHalf16 ≠ fmtHalf16Chroma ∧
    fmtHalf16.type = PixelType.HALF ∧
    fmtHalf16Chroma.type = PixelType.HALF := by
  decide

/-- Claim C5 (confirmed): `get_tmp_size` is nonzero only when both the
affine kernel and the f16c kernel are present; when both are present it
equals `(align right k - mod left k) * sizeof(float)` with
`k = ALIGNMENT / min(input_pixel_size, output_pixel_size)`, and in every
other configuration it is zero. -/
theorem claim_C5_tmp_size (s : ConvertToFloat) (left right : Nat) :
    (s.get_tmp_size left right ≠ 0 →
      s.m_func.isSome ∧ s.m_f16c.isSome) ∧
    (s.m_func.isSome ∧ s.m_f16c.isSome →
      s.get_tmp_size left right =
        (align right s.pixel_align - mod left s.pixel_align) * 4) ∧
    (¬(s.m_func.isSome ∧ s.m_f16c.isSome) →
      s.get_tmp_size left right = 0) := by
  unfold ConvertToFloat.get_tmp_size
  split_ifs with h <;> simp [h]

/-- Witness for claim C5 at the BYTE-to-HALF filter (both kernels present)
and range `[5, 7)`. -/
theorem claim_C5_tmp_size_witness :
    byteToHalfFilter.get_tmp_size 5 7 =
      (align 7 byteToHalfFilter.pixel_align -
        mod 5 byteToHalfFilter.pixel_align) * 4 :=
  (claim_C5_tmp_size byteToHalfFilter 5 7).2.1 (by decide)

/-- Claim C8 (confirmed): `get_flags` reports `same_row` as true
unconditionally, and `in_place` as true exactly when the input and output
pixel byte sizes are equal. -/
theorem claim_C8_flags (s : ConvertToFloat) :
    s.get_flags.same_row = true ∧
    (s.get_flags.in_place = true ↔
      pixel_size s.m_pixel_in = pixel_size s.m_pixel_out) := by
  unfold ConvertToFloat.get_flags
  simp

theorem byteToFloatFilter_scale : byteToFloatFilter.m_scale = 1 / 255 := by
  show 1 / ((integer_range 8 true false : Int) : ℚ) = 1 / 255
  norm_num [integer_range]

theorem byteToFloatFilter_offset : byteToFloatFilter.m_offset = 0 := by
  show -((integer_offset 8 true false : Int) : ℚ) *
      (1 / ((integer_range 8 true false : Int) : ℚ)) = 0
  norm_num [integer_offset]

/-- Claim C2 (confirmed): a successfully constructed filter has
`m_scale = 1/range` and `m_offset = -offset/range` derived from the input
format's depth, full-range and chroma flags when the input is an integer
format, and `m_scale = 1`, `m_offset = 0` otherwise; the integer-to-float
kernel maps every source code `c` inside `[left, right)` to
`c * scale + offset`, so the code 0 maps to `offset` and any code `c` maps
to `scale * c + offset`; in particular the 8-bit full-range filter has
`scale = 1/255`, `offset = 0` and maps code 0 to 0 and code 255 to 1. -/
theorem claim_C2_affine_constants (func : Option DepthConvertFunc)
    (f16c : Option F16CFunc) (width height : Nat) (pin pout : PixelFormat)
    (s : ConvertToFloat)
    (h : ConvertToFloat.construct func f16c width height pin pout =
      Except.ok s) :
    ((pin.type = PixelType.BYTE ∨ pin.type = PixelType.WORD) →
      s.m_scale =
        1 / ((integer_range pin.depth pin.fullrange pin.chroma : Int) : ℚ) ∧
      s.m_offset =
        -((integer_offset pin.depth pin.fullrange pin.chroma : Int) : ℚ) /
          ((integer_range pin.depth pin.fullrange pin.chroma : Int) : ℚ)) ∧
    (¬(pin.type = PixelType.BYTE ∨ pin.type = PixelType.WORD) →
      s.m_scale = 1 ∧ s.m_offset = 0) ∧
    (∀ (srcR dstR : Nat → ℚ) (left right j : Nat), left ≤ j → j < right →
      integer_to_float srcR dstR s.m_scale s.m_offset left right j =
        srcR j * s.m_scale + s.m_offset) ∧
    (∀ (srcR dstR : Nat → ℚ) (left right j : Nat), left ≤ j → j < right →
      srcR j = 0 →
      integer_to_float srcR dstR s.m_scale s.m_offset left right j =
        s.m_offset) ∧
    (byteToFloatFilter.m_scale = 1 / 255 ∧ byteToFloatFilter.m_offset = 0 ∧
      integer_to_float (fun _ => 255) (fun _ => 0) byteToFloatFilter.m_scale
        byteToFloatFilter.m_offset 0 4 1 = 1 ∧
      integer_to_float (fun _ => 0) (fun _ => 7) byteToFloatFilter.m_scale
        byteToFloatFilter.m_offset 0 4 1 = 0) := by
  unfold ConvertToFloat.construct at h
  split_ifs at h with v1 v2 v3
  injection h with h2
  subst h2
  refine ⟨?_, ?_, ?_, ?_, ?_⟩
  · intro hint
    dsimp only
    rw [if_pos hint, if_pos hint]
    exact ⟨by ring, by ring⟩
  · intro hint
    dsimp only
    rw [if_neg hint, if_neg hint]
    norm_num
  · intro srcR dstR left right j hj1 hj2
    unfold integer_to_float
    rw [if_pos ⟨hj1, hj2⟩]
  · intro srcR dstR left right j hj1 hj2 hz
    unfold integer_to_float
    rw [if_pos ⟨hj1, hj2⟩, hz]
    ring
  · refine ⟨byteToFloatFilter_scale, byteToFloatFilter_offset, ?_, ?_⟩ <;>
      rw [byteToFloatFilter_scale, byteToFloatFilter_offset] <;>
      norm_num [integer_to_float]

/-- Witness for claim C2 at the 8-bit full-range BYTE-to-FLOAT filter. -/
theorem claim_C2_affine_constants_witness :
    byteToFloatFilter.m_scale =
      1 / ((integer_range fmtByte8.depth fmtByte8.fullrange fmtByte8.chroma :
        Int) : ℚ) ∧
    byteToFloatFilter.m_offset =
      -((integer_offset fmtByte8.depth fmtByte8.fullrange fmtByte8.chroma :
        Int) : ℚ) /
        ((integer_range fmtByte8.depth fmtByte8.fullrange fmtByte8.chroma :
          Int) : ℚ) :=
  (claim_C2_affine_constants (some DepthConvertFunc.i2f_u8) none 64 1
    fmtByte8 fmtFloat32 byteToFloatFilter rfl).1 (Or.inl rfl)

/-- Claim C6 (amended): when a per-tile execution is reached with neither
kernel present, the source calls the null `m_f16c` function pointer, which
is undefined behavior (modelled as `none`), rather than signalling a caller
error; and this case can occur for a filter obtained from the factory:
construction succeeds with both kernels null for two distinct formats that
are both of full-float type.  The original claim asserted that the execution
signals a caller error and that the case is unreachable from the factory
(see the counterexample). -/
theorem claim_C6_missing_kernels (s : ConvertToFloat) (h2f f2h : ℚ → ℚ)
    (src dst : Nat → Nat → ℚ) (tmp : Nat → ℚ) (i left right : Nat)
    (hf : s.m_func = none) (hc : s.m_f16c = none) :
    s.process h2f f2h src dst tmp i left right = none ∧
    (create_convert_to_float 64 1 fmtFloat32 fmtFloat32Full =
        Except.ok floatToFloatFilter ∧
      floatToFloatFilter.m_func = none ∧
      floatToFloatFilter.m_f16c = none) :=
  ⟨process_none s h2f f2h src dst tmp i left right hf hc,
   rfl, rfl, rfl⟩

/-- Witness for claim C6: the factory filter for two distinct full-float
formats runs into the undefined null call on any tile. -/
theorem claim_C6_missing_kernels_witness :
    floatToFloatFilter.process id id (fun _ _ => 0) (fun _ _ => 0)
      (fun _ => 0) 0 0 4 = none :=
  (claim_C6_missing_kernels floatToFloatFilter id id (fun _ _ => 0)
    (fun _ _ => 0) (fun _ => 0) 0 0 4 rfl rfl).1

/-- Counterexample to claim C6 as stated: the factory accepts two distinct
full-float formats and returns a filter with both kernels null, so the
neither-kernel case does occur for a filter obtained from the factory, and
its execution produces no result (undefined null call) instead of a caller
error. -/
theorem claim_C6_counterexample :
    exceptOk (create_convert_to_float 64 1 fmtFloat32 fmtFloat32Full) =
      true ∧
    (getFilter (create_convert_to_float 64 1 fmtFloat32
      fmtFloat32Full)).m_func = none ∧
    (getFilter (create_convert_to_float 64 1 fmtFloat32
      fmtFloat32Full)).m_f16c = none ∧
    (getFilter (create_convert_to_float 64 1 fmtFloat32
      fmtFloat32Full)).process id id (fun _ _ => 0) (fun _ _ => 0)
      (fun _ => 0) 0 0 4 = none :=
  ⟨by decide, rfl, rfl, rfl⟩

/-- Claim C7 (confirmed): for every execution of the filter with range
`[left, right)`, destination elements outside `[left, right)` of row `i`
(and all elements of other rows) keep their previous contents; the written
values depend only on the source elements of row `i` inside `[left, right)`
(not on the previous destination or scratch contents); and each elementwise
kernel leaves every destination element outside `[left, right)` unchanged. -/
theorem claim_C7_range_confinement (s : ConvertToFloat) (h2f f2h : ℚ → ℚ)
    (src dst : Nat → Nat → ℚ) (tmp : Nat → ℚ) (i left right : Nat)
    (hk : ¬(s.m_func = none ∧ s.m_f16c = none)) (hlr : left ≤ right) :
    (∀ r j, ¬(r = i ∧ left ≤ j ∧ j < right) →
      s.processDst h2f f2h src dst tmp i left right r j = dst r j) ∧
    (∀ (src2 dst2 : Nat → Nat → ℚ) (tmp2 : Nat → ℚ),
      (∀ j, left ≤ j → j < right → src2 i j = src i j) →
      ∀ j, left ≤ j → j < right →
        s.processDst h2f f2h src2 dst2 tmp2 i left right i j =
        s.processDst h2f f2h src dst tmp i left right i j) ∧
    (∀ (srcR dstR : Nat → ℚ) (scale offset : ℚ) (j : Nat),
      ¬(left ≤ j ∧ j < right) →
      integer_to_float srcR dstR scale offset left right j = dstR j ∧
      half_to_float_n h2f srcR dstR left right j = dstR j ∧
      float_to_half_n f2h srcR dstR left right j = dstR j) := by
  refine ⟨?_, ?_, ?_⟩
  · intro r j hout
    rw [processDst_characterization s h2f f2h src dst tmp i left right hk
      hlr]
    exact if_neg hout
  · intro src2 dst2 tmp2 hsrc j hj1 hj2
    rw [processDst_characterization s h2f f2h src dst tmp i left right hk
      hlr,
      processDst_characterization s h2f f2h src2 dst2 tmp2 i left right hk
      hlr]
    simp [hsrc j hj1 hj2, hj1, hj2]
  · intro srcR dstR scale offset j hout
    unfold integer_to_float half_to_float_n float_to_half_n
    exact ⟨if_neg hout, if_neg hout, if_neg hout⟩

/-- Witness for claim C7 at the BYTE-to-FLOAT filter: the destination
element at column 0 is untouched by an execution on `[1, 3)`. -/
theorem claim_C7_range_confinement_witness :
    byteToFloatFilter.processDst id id (fun _ j => (j : ℚ))
      (fun _ _ => 5) (fun _ => 0) 0 1 3 0 0 = (fun _ _ => (5 : ℚ)) 0 0 :=
  (claim_C7_range_confinement byteToFloatFilter id id (fun _ j => (j : ℚ))
    (fun _ _ => 5) (fun _ => 0) 0 1 3 (by decide) (by decide)).1 0 0
    (by omega)

/-- Claim C9 (confirmed): executing the filter on `[left, right)` and then
on the adjacent range `[right, right2)` produces the same destination
contents as a single execution on `[left, right2)`, for any scratch buffer
contents. -/
theorem claim_C9_range_splitting (s : ConvertToFloat) (h2f f2h : ℚ → ℚ)
    (src dst : Nat → Nat → ℚ) (tmp tmp2 tmp3 : Nat → ℚ)
    (i left right right2 : Nat)
    (hk : ¬(s.m_func = none ∧ s.m_f16c = none))
    (h1 : left ≤ right) (h2 : right ≤ right2) :
    s.processDst h2f f2h src
      (s.processDst h2f f2h src dst tmp i left right) tmp2 i right right2 =
    s.processDst h2f f2h src dst tmp3 i left right2 := by
  rw [processDst_characterization s h2f f2h src dst tmp i left right hk h1,
    processDst_characterization s h2f f2h src _ tmp2 i right right2 hk h2,
    processDst_characterization s h2f f2h src dst tmp3 i left right2 hk
      (le_trans h1 h2)]
  funext r j
  split_ifs <;> first | rfl | (exfalso; omega)

/-- Witness for claim C9 at the BYTE-to-FLOAT filter: `[0, 2)` then
`[2, 4)` agrees with `[0, 4)` at row 0, column 1. -/
theorem claim_C9_range_splitting_witness :
    byteToFloatFilter.processDst id id (fun _ j => (j : ℚ))
      (byteToFloatFilter.processDst id id (fun _ j => (j : ℚ))
        (fun _ _ => 9) (fun _ => 0) 0 0 2) (fun _ => 1) 0 2 4 0 1 =
    byteToFloatFilter.processDst id id (fun _ j => (j : ℚ))
      (fun _ _ => 9) (fun _ => 2) 0 0 4 0 1 :=
  congrFun (congrFun (claim_C9_range_splitting byteToFloatFilter id id
    (fun _ j => (j : ℚ)) (fun _ _ => 9) (fun _ => 0) (fun _ => 1)
    (fun _ => 2) 0 0 2 4 (by decide) (by decide) (by decide)) 0) 1

/-- Claim C10 (confirmed): per-tile execution is deterministic and free of
hidden state: two invocations of the same filter with equal source row
contents, equal row index and equal range produce equal destination contents
throughout the written range, regardless of the initial destination and
scratch contents; and the factory is a function, so identical construction
parameters yield identical filters. -/
theorem claim_C10_determinism (s : ConvertToFloat) (h2f f2h : ℚ → ℚ)
    (src1 src2 dst1 dst2 : Nat → Nat → ℚ) (tmp1 tmp2 : Nat → ℚ)
    (i left right : Nat)
    (hk : ¬(s.m_func = none ∧ s.m_f16c = none)) (hlr : left ≤ right)
    (hsrc : ∀ j, src1 i j = src2 i j) :
    (∀ j, left ≤ j → j < right →
      s.processDst h2f f2h src1 dst1 tmp1 i left right i j =
      s.processDst h2f f2h src2 dst2 tmp2 i left right i j) ∧
    (∀ (w h : Nat) (pin pout : PixelFormat) (s1 s2 : ConvertToFloat),
      create_convert_to_float w h pin pout = Except.ok s1 →
      create_convert_to_float w h pin pout = Except.ok s2 → s1 = s2) := by
  constructor
  · intro j hj1 hj2
    rw [processDst_characterization s h2f f2h src1 dst1 tmp1 i left right
      hk hlr,
      processDst_characterization s h2f f2h src2 dst2 tmp2 i left right
      hk hlr]
    simp [hsrc j, hj1, hj2]
  · intro w h pin pout s1 s2 e1 e2
    rw [e1] at e2
    injection e2

/-- Witness for claim C10 at the BYTE-to-FLOAT filter: differing initial
destination and scratch contents do not change the written value at
column 1 of an execution on `[1, 3)`. -/
theorem claim_C10_determinism_witness :
    byteToFloatFilter.processDst id id (fun _ j => (j : ℚ))
      (fun _ _ => 3) (fun _ => 7) 0 1 3 0 1 =
    byteToFloatFilter.processDst id id (fun _ j => (j : ℚ))
      (fun _ _ => 4) (fun _ => 9) 0 1 3 0 1 :=
  (claim_C10_determinism byteToFloatFilter id id (fun _ j => (j : ℚ))
    (fun _ j => (j : ℚ)) (fun _ _ => 3) (fun _ _ => 4) (fun _ => 7)
    (fun _ => 9) 0 1 3 (by decide) (by decide) (fun _ => rfl)).1 1
    (by decide) (by decide)

end zimg
